import Mathlib

/-!
# Sniffle BLE packet decoder — shallow embedding

Shallow embedding of `python_cli/sniffle/packet_decoder.py`: the PDU type
dispatcher, the per-kind field decoders (including the variable-length
Extended Advertising header walk), the correlation state machine
(`update_state`) and the top-level decode entry point
(`DPacketMessage.decode`).

Modelling conventions:
- Byte buffers are `List ℕ` (each entry a byte value).  Python's clamping
  slice `s[a:b]` is `pySlice`; a plain index `s[i]`, which raises
  `IndexError` out of range, is `List.get?` with `none` flowing into the
  surrounding failure path.
- Timestamps and deadlines are exact rationals `ℚ`; the decimal literals
  (`0.0005`, `0.001`, `0.000001`) of the source appear verbatim.
- Python exceptions are `Except`: the decode phase returns
  `Except Unit DPacket`; `update_state` returns `Except DState DState`
  where the `error` payload is the state as already mutated at the raise
  point (Python mutates the caller's state object in place, so the
  mutations made before an exception survive the `except` handler).
- Python truthiness: an `Option ℚ` deadline attribute is truthy iff it is
  `some x` with `x ≠ 0` (`None` and `0.0` are falsy); the pending-chain
  tuple and decoder-state objects are truthy iff present.
- Python `==` between decoded `AdvDataInfo` objects is reference
  identity (the class defines no `__eq__`); see `sameAdiRef` for how the
  chain-sweep comparison of line 525 is modelled.
-/

namespace Sniffle

/-- Python clamping slice `l[a:b]` for `0 ≤ a ≤ b`: never raises, may
return fewer than `b - a` elements. -/
def pySlice (l : List ℕ) (a b : ℕ) : List ℕ :=
  (l.drop a).take (b - a)

/-- Modelled from the spec: `BLE_ADV_AA` from `sniffle/constants.py`
(not under `src/`), the reserved advertising access address `0x8E89BED6`
compared for exact equality to classify advertising vs data traffic. -/
def BLE_ADV_AA : ℕ := 0x8E89BED6

/-- Modelled from the spec: `rbit24` from `sniffle/crc_ble.py` (not under
`src/`), the helper reversing the bit order of a 24-bit CRC-init value. -/
def rbit24 (v : ℕ) : ℕ :=
  (List.range 24).foldl (fun acc i => acc * 2 + (v >>> i) % 2) 0

/-- Modelled from the spec: the sniffer capture-mode enum
(`sniffle/sniffer_state.py`, not under `src/`).  The spec requires at
minimum distinguishing scanning and advertising-extended from all other
modes. -/
inductive SnifferSt where
  | scanning
  | advertisingExt
  | other
deriving DecidableEq

/-- Modelled from the spec: the Raw Packet Record (`PacketMessage` from
`sniffle/sniffle_hw.py`, not under `src/`): capture timestamp, epoch
timestamp, access address, RSSI, channel, PHY, body bytes, direction
flag, event counter and CRC byte-order flag.  Immutable input unit. -/
structure PacketMessage where
  ts : ℚ := 0
  ts_epoch : ℚ := 0
  aa : ℕ := 0
  rssi : ℤ := 0
  chan : ℕ := 0
  phy : ℕ := 0
  body : List ℕ := []
  data_dir : Bool := false
  event : ℕ := 0
  crc_rev : Bool := false
deriving DecidableEq

/-- `AuxPtr` fields (packet_decoder.py, `AuxPtr.__init__`). -/
structure AuxPtrData where
  chan : ℕ
  phy : ℕ
  offsetUsec : ℕ
deriving DecidableEq

/-- `AuxPtr.__init__`: reads `ptr[0]`, `ptr[2]`, `ptr[1]`; an out-of-range
index raises, so fewer than 3 bytes yields `none`. -/
def auxPtrInit (ptr : List ℕ) : Option AuxPtrData :=
  match ptr.get? 0, ptr.get? 1, ptr.get? 2 with
  | some p0, some p1, some p2 =>
      let offsetMult : ℕ := if p0 &&& 0x80 ≠ 0 then 300 else 30
      let auxOffset : ℕ := p1 + ((p2 &&& 0x1F) <<< 8)
      some { chan := p0 &&& 0x3F, phy := p2 >>> 5, offsetUsec := auxOffset * offsetMult }
  | _, _, _ => none

/-- `AdvDataInfo` fields (packet_decoder.py, `AdvDataInfo.__init__`). -/
structure AdvDataInfoData where
  did : ℕ
  sid : ℕ
deriving DecidableEq

/-- `AdvDataInfo.__init__`: reads `adi[0]` and `adi[1]`; fewer than 2
bytes raises, yielding `none`. -/
def advDataInfoInit (adi : List ℕ) : Option AdvDataInfoData :=
  match adi.get? 0, adi.get? 1 with
  | some a0, some a1 => some { did := a0 + ((a1 &&& 0x0F) <<< 8), sid := a1 >>> 4 }
  | _, _ => none

/-- `struct.unpack("b", s)`: requires exactly one byte, signed. -/
def unpackInt8 (l : List ℕ) : Option ℤ :=
  match l with
  | [b] => some (if b < 128 then (b : ℤ) else (b : ℤ) - 256)
  | _ => none

/-- `struct.unpack("<L", s)`: requires exactly four bytes, little endian. -/
def unpackU32 (l : List ℕ) : Option ℕ :=
  match l with
  | [a, b, c, d] => some (a + b * 256 + c * 65536 + d * 16777216)
  | _ => none

/-- `struct.unpack("<HHHH", s)`: requires exactly eight bytes. -/
def unpack4U16 (l : List ℕ) : Option (ℕ × ℕ × ℕ × ℕ) :=
  match l with
  | [a0, a1, b0, b1, c0, c1, d0, d1] =>
      some (a0 + a1 * 256, b0 + b1 * 256, c0 + c1 * 256, d0 + d1 * 256)
  | _ => none

/-- The concrete PDU kinds: one case per `DPacketMessage` subclass of the
source (`raw` stands for an undecoded generic `PacketMessage`). -/
inductive PduKind where
  | raw
  | advert
  | dataRfu
  | llData
  | llDataCont
  | llControl
  | advInd
  | advDirectInd
  | advNonconnInd
  | scanReq
  | scanRsp
  | connectInd
  | advScanInd
  | advExtInd
  | auxScanReq
  | auxConnectReq
  | auxAdvInd
  | auxScanRsp
  | auxChainInd
  | auxConnectRsp
deriving DecidableEq

/-- A decoded PDU: the common header fields copied by
`DPacketMessage.__init__` plus every subclass attribute as an `Option`
(`none` models a Python attribute that is absent or `None`). -/
structure DPacket where
  ts : ℚ := 0
  ts_epoch : ℚ := 0
  aa : ℕ := 0
  rssi : ℤ := 0
  chan : ℕ := 0
  phy : ℕ := 0
  body : List ℕ := []
  data_dir : Bool := false
  event : ℕ := 0
  crc_rev : Bool := false
  kind : PduKind := .raw
  ChSel : Option ℕ := none
  TxAdd : Option ℕ := none
  RxAdd : Option ℕ := none
  ad_length : Option ℕ := none
  NESN : Option ℕ := none
  SN : Option ℕ := none
  MD : Option ℕ := none
  data_length : Option ℕ := none
  opcode : Option ℕ := none
  AdvA : Option (List ℕ) := none
  TargetA : Option (List ℕ) := none
  ScanA : Option (List ℕ) := none
  InitA : Option (List ℕ) := none
  aa_conn : Option ℕ := none
  CRCInit : Option ℕ := none
  WinSize : Option ℕ := none
  WinOffset : Option ℕ := none
  Interval : Option ℕ := none
  Latency : Option ℕ := none
  Timeout : Option ℕ := none
  ChM : Option (List ℕ) := none
  Hop : Option ℕ := none
  SCA : Option ℕ := none
  AdvMode : Option ℕ := none
  CTEInfo : Option ℕ := none
  AdvDataInfo : Option AdvDataInfoData := none
  AuxPtr : Option AuxPtrData := none
  SyncInfo : Option (List ℕ) := none
  TxPower : Option ℤ := none
  ACAD : Option (List ℕ) := none
deriving DecidableEq

/-- `DPacketMessage.__init__`: copy the ten common header fields of the
raw record.  The input record is read only, never written. -/
def base (k : PduKind) (pkt : PacketMessage) : DPacket :=
  { ts := pkt.ts, ts_epoch := pkt.ts_epoch, aa := pkt.aa, rssi := pkt.rssi,
    chan := pkt.chan, phy := pkt.phy, body := pkt.body, data_dir := pkt.data_dir,
    event := pkt.event, crc_rev := pkt.crc_rev, kind := k }

/-- `AdvertMessage.__init__`: bit fields of `body[0]` and `body[1]`.
Reading `body[0]` or `body[1]` raises when the body is shorter. -/
def advertInit (k : PduKind) (pkt : PacketMessage) : Except Unit DPacket :=
  match pkt.body.get? 0, pkt.body.get? 1 with
  | some b0, some b1 =>
      .ok { base k pkt with
            ChSel := some ((b0 >>> 5) &&& 1),
            TxAdd := some ((b0 >>> 6) &&& 1),
            RxAdd := some ((b0 >>> 7) &&& 1),
            ad_length := some b1 }
  | _, _ => .error ()

/-- `AdvaMessage.__init__`: `AdvA = body[2:8]` (clamping slice). -/
def advaInit (k : PduKind) (pkt : PacketMessage) : Except Unit DPacket :=
  match advertInit k pkt with
  | .error e => .error e
  | .ok a => .ok { a with AdvA := some (pySlice pkt.body 2 8) }

/-- `AdvDirectIndMessage.__init__`: `AdvA = body[2:8]`, `TargetA = body[8:14]`. -/
def advDirectInit (pkt : PacketMessage) : Except Unit DPacket :=
  match advertInit .advDirectInd pkt with
  | .error e => .error e
  | .ok a => .ok { a with AdvA := some (pySlice pkt.body 2 8),
                          TargetA := some (pySlice pkt.body 8 14) }

/-- `ScanReqMessage.__init__`: `ScanA = body[2:8]`, `AdvA = body[8:14]`. -/
def scanReqInit (k : PduKind) (pkt : PacketMessage) : Except Unit DPacket :=
  match advertInit k pkt with
  | .error e => .error e
  | .ok a => .ok { a with ScanA := some (pySlice pkt.body 2 8),
                          AdvA := some (pySlice pkt.body 8 14) }

/-- `ConnectIndMessage.__init__`: addresses, connection access address,
CRC-init (little endian), window/interval parameters, channel map, hop
and SCA.  Fixed-offset reads past the body end raise. -/
def connectIndInit (k : PduKind) (pkt : PacketMessage) : Except Unit DPacket :=
  match advertInit k pkt with
  | .error e => .error e
  | .ok a =>
    match unpackU32 (pySlice pkt.body 14 18) with
    | none => .error ()
    | some aaC =>
      match pkt.body.get? 18, pkt.body.get? 19, pkt.body.get? 20, pkt.body.get? 21 with
      | some c18, some c19, some c20, some w21 =>
        match unpack4U16 (pySlice pkt.body 22 30) with
        | none => .error ()
        | some (wo, iv, lat, tmo) =>
          match pkt.body.get? 35 with
          | none => .error ()
          | some b35 =>
            .ok { a with
                  InitA := some (pySlice pkt.body 2 8),
                  AdvA := some (pySlice pkt.body 8 14),
                  aa_conn := some aaC,
                  CRCInit := some (c18 ||| (c19 <<< 8) ||| (c20 <<< 16)),
                  WinSize := some w21,
                  WinOffset := some wo, Interval := some iv,
                  Latency := some lat, Timeout := some tmo,
                  ChM := some (pySlice pkt.body 30 35),
                  Hop := some (b35 &&& 0x1F),
                  SCA := some (b35 >>> 5) }
      | _, _, _, _ => .error ()

/-- `DataMessage.__init__`: bit fields of `body[0]` and `body[1]`. -/
def dataInit (k : PduKind) (pkt : PacketMessage) : Except Unit DPacket :=
  match pkt.body.get? 0, pkt.body.get? 1 with
  | some b0, some b1 =>
      .ok { base k pkt with
            NESN := some ((b0 >>> 2) &&& 1),
            SN := some ((b0 >>> 3) &&& 1),
            MD := some ((b0 >>> 4) &&& 1),
            data_length := some b1 }
  | _, _ => .error ()

/-- `LlControlMessage.__init__`: additionally `opcode = body[2]`. -/
def llControlInit (pkt : PacketMessage) : Except Unit DPacket :=
  match dataInit .llControl pkt with
  | .error e => .error e
  | .ok d =>
    match pkt.body.get? 2 with
    | none => .error ()
    | some b2 => .ok { d with opcode := some b2 }

/-- Intermediate result of the extended-advertising header walk of
`AdvExtIndMessage.__init__`.  `hdrBodyLen` and `hdrPos` record the local
variables of the source of the same names (`hdrPos - 3` is the number of
header-body bytes the walk consumed). -/
structure ExtWalk where
  AdvMode : Option ℕ := none
  AdvA : Option (List ℕ) := none
  TargetA : Option (List ℕ) := none
  CTEInfo : Option ℕ := none
  AdvDataInfo : Option AdvDataInfoData := none
  AuxPtr : Option AuxPtrData := none
  SyncInfo : Option (List ℕ) := none
  TxPower : Option ℤ := none
  ACAD : Option (List ℕ) := none
  hdrBodyLen : ℕ := 0
  hdrPos : ℕ := 4
deriving DecidableEq

/-- Trailing ACAD step of the extended-header walk. -/
def stepACAD (body : List ℕ) (w : ExtWalk) (p : ℕ) : ExtWalk :=
  if p - 3 < w.hdrBodyLen then
    let n := w.hdrBodyLen - (p - 3)
    { w with ACAD := some (pySlice body p (p + n)), hdrPos := p + n }
  else { w with hdrPos := p }

/-- TxPower step: `struct.unpack("b", body[p:p+1])` raises on an empty
slice, aborting the walk with the fields parsed so far. -/
def stepTxPower (f : ℕ) (body : List ℕ) (w : ExtWalk) (p : ℕ) : ExtWalk :=
  if f &&& 0x40 ≠ 0 then
    match unpackInt8 (pySlice body p (p + 1)) with
    | none => { w with hdrPos := p }
    | some tp => stepACAD body { w with TxPower := some tp } (p + 1)
  else stepACAD body w p

/-- SyncInfo step: an 18-byte clamping slice, never raises. -/
def stepSync (f : ℕ) (body : List ℕ) (w : ExtWalk) (p : ℕ) : ExtWalk :=
  if f &&& 0x20 ≠ 0 then
    stepTxPower f body { w with SyncInfo := some (pySlice body p (p + 18)) } (p + 18)
  else stepTxPower f body w p

/-- AuxPtr step: the `AuxPtr` constructor indexes 3 bytes and raises on a
shorter slice, aborting the walk. -/
def stepAuxPtr (f : ℕ) (body : List ℕ) (w : ExtWalk) (p : ℕ) : ExtWalk :=
  if f &&& 0x10 ≠ 0 then
    match auxPtrInit (pySlice body p (p + 3)) with
    | none => { w with hdrPos := p }
    | some ap => stepSync f body { w with AuxPtr := some ap } (p + 3)
  else stepSync f body w p

/-- AdvDataInfo step: the `AdvDataInfo` constructor indexes 2 bytes and
raises on a shorter slice, aborting the walk. -/
def stepADI (f : ℕ) (body : List ℕ) (w : ExtWalk) (p : ℕ) : ExtWalk :=
  if f &&& 0x08 ≠ 0 then
    match advDataInfoInit (pySlice body p (p + 2)) with
    | none => { w with hdrPos := p }
    | some adi => stepAuxPtr f body { w with AdvDataInfo := some adi } (p + 2)
  else stepAuxPtr f body w p

/-- CTEInfo step: a plain index `body[p]`, raising out of range. -/
def stepCTE (f : ℕ) (body : List ℕ) (w : ExtWalk) (p : ℕ) : ExtWalk :=
  if f &&& 0x04 ≠ 0 then
    match body.get? p with
    | none => { w with hdrPos := p }
    | some c => stepADI f body { w with CTEInfo := some c } (p + 1)
  else stepADI f body w p

/-- TargetA step: a 6-byte clamping slice, never raises. -/
def stepTargetA (f : ℕ) (body : List ℕ) (w : ExtWalk) (p : ℕ) : ExtWalk :=
  if f &&& 0x02 ≠ 0 then
    stepCTE f body { w with TargetA := some (pySlice body p (p + 6)) } (p + 6)
  else stepCTE f body w p

/-- AdvA step: a 6-byte clamping slice, never raises. -/
def stepAdvA (f : ℕ) (body : List ℕ) (w : ExtWalk) (p : ℕ) : ExtWalk :=
  if f &&& 0x01 ≠ 0 then
    stepTargetA f body { w with AdvA := some (pySlice body p (p + 6)) } (p + 6)
  else stepTargetA f body w p

/-- The variable extended-header walk of `AdvExtIndMessage.__init__`:
length guards, `AdvMode`/`hdrBodyLen` from `body[2]`, presence flags from
`body[3]`, then the fixed left-to-right field order.  All raises are
caught by the constructor's internal handler, returning the fields parsed
so far. -/
def advExtWalk (body : List ℕ) : ExtWalk :=
  if body.length < 3 then {} else
  match body.get? 2 with
  | none => {}
  | some b2 =>
    if body.length < (b2 &&& 0x3F) + 1 then
      { AdvMode := some (b2 >>> 6), hdrBodyLen := b2 &&& 0x3F }
    else
      match body.get? 3 with
      | none => { AdvMode := some (b2 >>> 6), hdrBodyLen := b2 &&& 0x3F }
      | some f => stepAdvA f body { AdvMode := some (b2 >>> 6), hdrBodyLen := b2 &&& 0x3F } 4

/-- `AdvExtIndMessage.__init__`: the advertising header, then the walk
(whose failures are contained internally, so the walk itself never makes
the constructor fail). -/
def advExtIndInit (k : PduKind) (pkt : PacketMessage) : Except Unit DPacket :=
  match advertInit k pkt with
  | .error e => .error e
  | .ok a =>
    let w := advExtWalk pkt.body
    .ok { a with AdvMode := w.AdvMode, AdvA := w.AdvA, TargetA := w.TargetA,
                 CTEInfo := w.CTEInfo, AdvDataInfo := w.AdvDataInfo,
                 AuxPtr := w.AuxPtr, SyncInfo := w.SyncInfo,
                 TxPower := w.TxPower, ACAD := w.ACAD }

/-- Modelled from the spec: the Decoder State
(`sniffle/decoder_state.py`, not under `src/`).  Field names and the
`None`-cleared representation are those used by `update_state` in the
source under `src/`: last capture mode, active connection access address,
reversed CRC-init, pending extended-connection slot, pending
scan-response deadline, pending chain slot `(AdvDataInfo, channel,
deadline)`. -/
structure DState where
  last_state : SnifferSt := .other
  cur_aa : Option ℕ := none
  crc_init_rev : Option ℕ := none
  aux_pending_aa : Option ℕ := none
  aux_pending_crci : Option ℕ := none
  aux_pending_scan_rsp : Option ℚ := none
  aux_pending_chain : Option (Option AdvDataInfoData × ℕ × ℚ) := none
deriving DecidableEq

/-- Python truthiness of a float-or-`None` attribute: `None` and `0.0`
are falsy. -/
def truthyQ : Option ℚ → Bool
  | none => false
  | some x => x ≠ 0

/-- The scan-response arm of the secondary-channel tie-break:
`dstate.aux_pending_scan_rsp and pkt.ts < dstate.aux_pending_scan_rsp`. -/
def scanRspHit (st : DState) (ts : ℚ) : Bool :=
  match st.aux_pending_scan_rsp with
  | none => false
  | some dl => if dl ≠ 0 ∧ ts < dl then true else false

/-- The chain arm of the secondary-channel tie-break:
`dstate.aux_pending_chain and pkt.chan == chain[1] and pkt.ts < chain[2]`. -/
def chainHit (st : DState) (chan : ℕ) (ts : ℚ) : Bool :=
  match st.aux_pending_chain with
  | none => false
  | some (_, ch, dl) => if chan = ch ∧ ts < dl then true else false

/-- Primary-channel dispatch: the `type_classes` table of
`AdvertMessage.decode`, indexed by the PDU-type nibble, out-of-range
values falling back to the generic `AdvertMessage`. -/
def primarySelect (pdu_type : ℕ) : PduKind :=
  match pdu_type with
  | 0 => .advInd
  | 1 => .advDirectInd
  | 2 => .advNonconnInd
  | 3 => .scanReq
  | 4 => .scanRsp
  | 5 => .connectInd
  | 6 => .advScanInd
  | 7 => .advExtInd
  | _ => .advert

/-- Secondary-channel dispatch of `AdvertMessage.decode`.  PDU type 7 is
resolved against the decoder state; with no state (`dstate=None`) the
attribute access `dstate.aux_pending_scan_rsp` raises. -/
def secondarySelect (pkt : PacketMessage) (dstate : Option DState) (pdu_type : ℕ) :
    Except Unit PduKind :=
  if pdu_type = 3 then .ok .auxScanReq
  else if pdu_type = 5 then .ok .auxConnectReq
  else if pdu_type = 7 then
    match dstate with
    | none => .error ()
    | some st =>
      if scanRspHit st pkt.ts then .ok .auxScanRsp
      else if chainHit st pkt.chan pkt.ts then .ok .auxChainInd
      else .ok .auxAdvInd
  else if pdu_type = 8 then .ok .auxConnectRsp
  else .ok .advert

/-- `tc(pkt)`: invoke the constructor of the dispatched class. -/
def construct (k : PduKind) (pkt : PacketMessage) : Except Unit DPacket :=
  match k with
  | .advInd | .advNonconnInd | .scanRsp | .advScanInd => advaInit k pkt
  | .advDirectInd => advDirectInit pkt
  | .scanReq | .auxScanReq => scanReqInit k pkt
  | .connectInd | .auxConnectReq => connectIndInit k pkt
  | .advExtInd | .auxAdvInd | .auxScanRsp | .auxChainInd | .auxConnectRsp =>
      advExtIndInit k pkt
  | .llData | .llDataCont | .dataRfu => dataInit k pkt
  | .llControl => llControlInit pkt
  | .advert => advertInit .advert pkt
  | .raw => .error ()

/-- `AdvertMessage.decode`: nibble of `body[0]`, then primary or
secondary dispatch and construction. -/
def advertDecode (pkt : PacketMessage) (dstate : Option DState) : Except Unit DPacket :=
  match pkt.body.get? 0 with
  | none => .error ()
  | some b0 =>
    if 37 ≤ pkt.chan then construct (primarySelect (b0 &&& 0xF)) pkt
    else
      match secondarySelect pkt dstate (b0 &&& 0xF) with
      | .error e => .error e
      | .ok k => construct k pkt

/-- The LLID table of `DataMessage.decode`. -/
def dataSelect (llid : ℕ) : PduKind :=
  match llid with
  | 0 => .dataRfu
  | 1 => .llDataCont
  | 2 => .llData
  | _ => .llControl

/-- `DataMessage.decode`: dispatch on the 2-bit LLID of `body[0]`. -/
def dataDecode (pkt : PacketMessage) : Except Unit DPacket :=
  match pkt.body.get? 0 with
  | none => .error ()
  | some b0 => construct (dataSelect (b0 &&& 0x3)) pkt

/-- The dispatch half of `DPacketMessage.decode`: advertising vs data
traffic by access address. -/
def decodePhase (pkt : PacketMessage) (dstate : Option DState) : Except Unit DPacket :=
  if pkt.aa = BLE_ADV_AA then advertDecode pkt dstate else dataDecode pkt

/-- `isinstance(pkt, ConnectIndMessage)`: `AuxConnectReqMessage` is a
subclass. -/
def isConnectIndKind (k : PduKind) : Bool :=
  k = .connectInd ∨ k = .auxConnectReq

/-- `isinstance(pkt, AuxAdvIndMessage)`: `AuxScanRspMessage` and
`AuxChainIndMessage` are subclasses. -/
def isAuxAdvIndKind (k : PduKind) : Bool :=
  k = .auxAdvInd ∨ k = .auxScanRsp ∨ k = .auxChainInd

/-- The kind-specific rules of `update_state` (everything before the
expiry sweep).  An `error` result is a raised Python exception; its
payload is the state as already mutated when the raise happened. -/
def applyRules (pkt : DPacket) (st : DState) : Except DState DState :=
  if isConnectIndKind pkt.kind then
    if pkt.chan < 37 ∧ st.last_state ≠ .advertisingExt then
      match pkt.aa_conn with
      | none => .error st
      | some aaC =>
        let st1 := { st with aux_pending_aa := some aaC }
        match pkt.CRCInit with
        | none => .error st1
        | some ci => .ok { st1 with aux_pending_crci := some ci }
    else
      match pkt.aa_conn with
      | none => .error st
      | some aaC =>
        let st1 := { st with cur_aa := some aaC }
        match pkt.CRCInit with
        | none => .error st1
        | some ci => .ok { st1 with crc_init_rev := some (rbit24 ci) }
  else if pkt.kind = .auxConnectRsp then
    let st1 := { st with cur_aa := st.aux_pending_aa, aux_pending_aa := none }
    match st1.aux_pending_crci with
    | none => .error st1
    | some ci => .ok { st1 with crc_init_rev := some (rbit24 ci), aux_pending_crci := none }
  else if pkt.kind = .auxScanReq then
    .ok { st with aux_pending_scan_rsp := some (pkt.ts + 0.0005) }
  else if isAuxAdvIndKind pkt.kind ∧ pkt.AuxPtr.isSome then
    match pkt.AuxPtr with
    | some ap =>
        .ok { st with aux_pending_chain := some (pkt.AdvDataInfo, ap.chan,
                        pkt.ts + (ap.offsetUsec : ℚ) * 0.000001 + 0.0005) }
    | none => .ok st
  else if st.last_state = .scanning ∧ isAuxAdvIndKind pkt.kind then
    match pkt.AdvMode with
    | none => .error st
    | some m =>
        if m = 2 then .ok { st with aux_pending_scan_rsp := some (pkt.ts + 0.001) }
        else .ok st
  else .ok st

/-- First block of the expiry sweep: clear the pending scan-response
deadline when it is truthy and the PDU's timestamp has passed it or the
PDU is an AUX_SCAN_RSP. -/
def sweepScan (pkt : DPacket) (st : DState) : DState :=
  if truthyQ st.aux_pending_scan_rsp then
    match st.aux_pending_scan_rsp with
    | some dl =>
        if pkt.ts > dl ∨ pkt.kind = .auxScanRsp then
          { st with aux_pending_scan_rsp := none }
        else st
    | none => st
  else st

/-- The comparison `pkt.AdvDataInfo == dstate.aux_pending_chain[0]` of
line 525: `AdvDataInfo` defines no `__eq__`, so Python `==` there is
reference identity.  Through the decode entry point every decoded packet
carries a freshly constructed `AdvDataInfo` object, so inside
`update_state` the two references coincide in exactly two cases: both
are `None`, or the chain slot was just armed in this same call with this
packet's own object — which happens precisely when the AuxPtr-carrying
rule fired, i.e. the PDU is of the `AuxAdvIndMessage` family and carries
an `AuxPtr` (the slot then holds `pkt.AdvDataInfo` itself). -/
def sameAdiRef (pkt : DPacket) : Bool :=
  isAuxAdvIndKind pkt.kind && pkt.AuxPtr.isSome

/-- Second block of the expiry sweep: clear the pending chain slot when
the PDU's timestamp has passed its deadline, or the PDU is an
AUX_CHAIN_IND whose channel matches and whose `AdvDataInfo` object is
identical to the slot's (reference identity, via `sameAdiRef`). -/
def sweepChain (pkt : DPacket) (st : DState) : DState :=
  match st.aux_pending_chain with
  | none => st
  | some (adi, ch, dl) =>
      if pkt.ts > dl then { st with aux_pending_chain := none }
      else if pkt.kind = .auxChainInd ∧ pkt.chan = ch ∧
              (sameAdiRef pkt = true ∨ (pkt.AdvDataInfo = none ∧ adi = none)) then
        { st with aux_pending_chain := none }
      else st

/-- The expiry sweep at the end of `update_state`: the scan-response
block followed by the chain block. -/
def sweep (pkt : DPacket) (st : DState) : DState :=
  sweepChain pkt (sweepScan pkt st)

/-- `update_state`: the kind-specific rules followed unconditionally by
the expiry sweep (unless a rule raised first). -/
def update_state (pkt : DPacket) (st : DState) : Except DState DState :=
  match applyRules pkt st with
  | .error s => .error s
  | .ok s => .ok (sweep pkt s)

/-- Result of the top-level entry point: a decoded PDU, or on any
internal failure the original raw record handed back unmodified. -/
inductive DecodeResult where
  | decoded (d : DPacket)
  | undecoded (p : PacketMessage)
deriving DecidableEq

/-- `DPacketMessage.decode`: dispatch, then (when a state object is
supplied) the state update, with every internal exception caught and the
original record returned in its place.  The second component is the
decoder state as seen by the caller after the call (Python mutates it in
place, so mutations made before a raise survive). -/
def decodeTop (pkt : PacketMessage) (ds : Option DState) : DecodeResult × Option DState :=
  match ds with
  | none =>
    match decodePhase pkt none with
    | .ok d => (.decoded d, none)
    | .error _ => (.undecoded pkt, none)
  | some st =>
    match decodePhase pkt (some st) with
    | .ok d =>
      match update_state d st with
      | .ok st2 => (.decoded d, some st2)
      | .error st2 => (.undecoded pkt, some st2)
    | .error _ => (.undecoded pkt, some st)

end Sniffle

namespace Sniffle

/-! ## Helper lemmas -/

/-- A Python slice is a contiguous piece of its buffer. -/
theorem pySlice_infix (l : List ℕ) (a b : ℕ) :
    ∃ pre suf, pre ++ pySlice l a b ++ suf = l := by
  refine ⟨l.take a, (l.drop a).drop (b - a), ?_⟩
  simp [pySlice, List.append_assoc, List.take_append_drop]

/-- Buffer-safety invariant of a finished extended-header walk: every
byte-sequence field it populated is a contiguous piece of the body, and
every single-byte field is a byte of the body. -/
def WalkInv (w : ExtWalk) (body : List ℕ) : Prop :=
  (∀ l, w.AdvA = some l → ∃ pre suf, pre ++ l ++ suf = body) ∧
  (∀ l, w.TargetA = some l → ∃ pre suf, pre ++ l ++ suf = body) ∧
  (∀ c, w.CTEInfo = some c → c ∈ body) ∧
  (∀ l, w.SyncInfo = some l → ∃ pre suf, pre ++ l ++ suf = body) ∧
  (∀ l, w.ACAD = some l → ∃ pre suf, pre ++ l ++ suf = body)

theorem stepACAD_inv (body : List ℕ) (w : ExtWalk) (p : ℕ) (h : WalkInv w body) :
    WalkInv (stepACAD body w p) body := by
  obtain ⟨h1, h2, h3, h4, h5⟩ := h
  unfold stepACAD
  split
  · refine ⟨h1, h2, h3, h4, ?_⟩
    intro l hl
    simp only [Option.some.injEq] at hl
    exact hl ▸ pySlice_infix body _ _
  · exact ⟨h1, h2, h3, h4, h5⟩

theorem stepTxPower_inv (f : ℕ) (body : List ℕ) (w : ExtWalk) (p : ℕ) (h : WalkInv w body) :
    WalkInv (stepTxPower f body w p) body := by
  obtain ⟨h1, h2, h3, h4, h5⟩ := h
  unfold stepTxPower
  split
  · split
    · exact ⟨h1, h2, h3, h4, h5⟩
    · exact stepACAD_inv body _ _ ⟨h1, h2, h3, h4, h5⟩
  · exact stepACAD_inv body _ _ ⟨h1, h2, h3, h4, h5⟩

theorem stepSync_inv (f : ℕ) (body : List ℕ) (w : ExtWalk) (p : ℕ) (h : WalkInv w body) :
    WalkInv (stepSync f body w p) body := by
  obtain ⟨h1, h2, h3, h4, h5⟩ := h
  unfold stepSync
  split
  · refine stepTxPower_inv f body _ _ ⟨h1, h2, h3, ?_, h5⟩
    intro l hl
    simp only [Option.some.injEq] at hl
    exact hl ▸ pySlice_infix body _ _
  · exact stepTxPower_inv f body _ _ ⟨h1, h2, h3, h4, h5⟩

theorem stepAuxPtr_inv (f : ℕ) (body : List ℕ) (w : ExtWalk) (p : ℕ) (h : WalkInv w body) :
    WalkInv (stepAuxPtr f body w p) body := by
  obtain ⟨h1, h2, h3, h4, h5⟩ := h
  unfold stepAuxPtr
  split
  · split
    · exact ⟨h1, h2, h3, h4, h5⟩
    · exact stepSync_inv f body _ _ ⟨h1, h2, h3, h4, h5⟩
  · exact stepSync_inv f body _ _ ⟨h1, h2, h3, h4, h5⟩

theorem stepADI_inv (f : ℕ) (body : List ℕ) (w : ExtWalk) (p : ℕ) (h : WalkInv w body) :
    WalkInv (stepADI f body w p) body := by
  obtain ⟨h1, h2, h3, h4, h5⟩ := h
  unfold stepADI
  split
  · split
    · exact ⟨h1, h2, h3, h4, h5⟩
    · exact stepAuxPtr_inv f body _ _ ⟨h1, h2, h3, h4, h5⟩
  · exact stepAuxPtr_inv f body _ _ ⟨h1, h2, h3, h4, h5⟩

theorem stepCTE_inv (f : ℕ) (body : List ℕ) (w : ExtWalk) (p : ℕ) (h : WalkInv w body) :
    WalkInv (stepCTE f body w p) body := by
  obtain ⟨h1, h2, h3, h4, h5⟩ := h
  unfold stepCTE
  split
  · split
    · exact ⟨h1, h2, h3, h4, h5⟩
    · rename_i c hc
      refine stepADI_inv f body _ _ ⟨h1, h2, ?_, h4, h5⟩
      intro x hx
      simp only [Option.some.injEq] at hx
      exact hx ▸ List.get?_mem hc
  · exact stepADI_inv f body _ _ ⟨h1, h2, h3, h4, h5⟩

theorem stepTargetA_inv (f : ℕ) (body : List ℕ) (w : ExtWalk) (p : ℕ) (h : WalkInv w body) :
    WalkInv (stepTargetA f body w p) body := by
  obtain ⟨h1, h2, h3, h4, h5⟩ := h
  unfold stepTargetA
  split
  · refine stepCTE_inv f body _ _ ⟨h1, ?_, h3, h4, h5⟩
    intro l hl
    simp only [Option.some.injEq] at hl
    exact hl ▸ pySlice_infix body _ _
  · exact stepCTE_inv f body _ _ ⟨h1, h2, h3, h4, h5⟩

theorem stepAdvA_inv (f : ℕ) (body : List ℕ) (w : ExtWalk) (p : ℕ) (h : WalkInv w body) :
    WalkInv (stepAdvA f body w p) body := by
  obtain ⟨h1, h2, h3, h4, h5⟩ := h
  unfold stepAdvA
  split
  · refine stepTargetA_inv f body _ _ ⟨?_, h2, h3, h4, h5⟩
    intro l hl
    simp only [Option.some.injEq] at hl
    exact hl ▸ pySlice_infix body _ _
  · exact stepTargetA_inv f body _ _ ⟨h1, h2, h3, h4, h5⟩

theorem walkInv_empty (body : List ℕ) (w : ExtWalk)
    (hA : w.AdvA = none) (hT : w.TargetA = none) (hC : w.CTEInfo = none)
    (hS : w.SyncInfo = none) (hX : w.ACAD = none) : WalkInv w body := by
  refine ⟨?_, ?_, ?_, ?_, ?_⟩ <;> intro x hx <;> simp_all

theorem advExtWalk_inv (body : List ℕ) : WalkInv (advExtWalk body) body := by
  unfold advExtWalk
  split
  · exact walkInv_empty body _ rfl rfl rfl rfl rfl
  · split
    · exact walkInv_empty body _ rfl rfl rfl rfl rfl
    · split
      · exact walkInv_empty body _ rfl rfl rfl rfl rfl
      · split
        · exact walkInv_empty body _ rfl rfl rfl rfl rfl
        · exact stepAdvA_inv _ body _ _ (walkInv_empty body _ rfl rfl rfl rfl rfl)

end Sniffle

namespace Sniffle

/-- Fields ordered after CTEInfo in the walk. -/
def LaterCTE (w : ExtWalk) : Prop :=
  w.AdvDataInfo = none ∧ w.AuxPtr = none ∧ w.SyncInfo = none ∧
  w.TxPower = none ∧ w.ACAD = none

theorem stepACAD_cte (body : List ℕ) (w : ExtWalk) (p : ℕ) :
    (stepACAD body w p).CTEInfo = w.CTEInfo := by
  unfold stepACAD; split <;> rfl

theorem stepTxPower_cte (f : ℕ) (body : List ℕ) (w : ExtWalk) (p : ℕ) :
    (stepTxPower f body w p).CTEInfo = w.CTEInfo := by
  unfold stepTxPower
  split
  · split
    · rfl
    · rw [stepACAD_cte]
  · rw [stepACAD_cte]

theorem stepSync_cte (f : ℕ) (body : List ℕ) (w : ExtWalk) (p : ℕ) :
    (stepSync f body w p).CTEInfo = w.CTEInfo := by
  unfold stepSync
  split
  · rw [stepTxPower_cte]
  · rw [stepTxPower_cte]

theorem stepAuxPtr_cte (f : ℕ) (body : List ℕ) (w : ExtWalk) (p : ℕ) :
    (stepAuxPtr f body w p).CTEInfo = w.CTEInfo := by
  unfold stepAuxPtr
  split
  · split
    · rfl
    · rw [stepSync_cte]
  · rw [stepSync_cte]

theorem stepADI_cte (f : ℕ) (body : List ℕ) (w : ExtWalk) (p : ℕ) :
    (stepADI f body w p).CTEInfo = w.CTEInfo := by
  unfold stepADI
  split
  · split
    · rfl
    · rw [stepAuxPtr_cte]
  · rw [stepAuxPtr_cte]

/-- If the CTEInfo presence flag is set but the walk finished with
CTEInfo still absent, the walk aborted at the CTEInfo read, so every
later optional field is also absent. -/
theorem stepCTE_abort (f : ℕ) (body : List ℕ) (w : ExtWalk) (p : ℕ)
    (hw : LaterCTE w) (hf : f &&& 0x04 ≠ 0)
    (h : (stepCTE f body w p).CTEInfo = none) : LaterCTE (stepCTE f body w p) := by
  unfold stepCTE at h ⊢
  rw [if_pos hf] at h ⊢
  rcases hg : body.get? p with _ | c
  · exact hw
  · rw [hg] at h
    have h2 : (stepADI f body { w with CTEInfo := some c } (p + 1)).CTEInfo = none := h
    rw [stepADI_cte] at h2
    simp at h2

theorem stepTargetA_abort (f : ℕ) (body : List ℕ) (w : ExtWalk) (p : ℕ)
    (hw : LaterCTE w) (hf : f &&& 0x04 ≠ 0)
    (h : (stepTargetA f body w p).CTEInfo = none) : LaterCTE (stepTargetA f body w p) := by
  unfold stepTargetA at h ⊢
  split at h
  · rw [if_pos (by assumption)]
    exact stepCTE_abort f body _ _ hw hf h
  · rw [if_neg (by assumption)]
    exact stepCTE_abort f body _ _ hw hf h

theorem stepAdvA_abort (f : ℕ) (body : List ℕ) (w : ExtWalk) (p : ℕ)
    (hw : LaterCTE w) (hf : f &&& 0x04 ≠ 0)
    (h : (stepAdvA f body w p).CTEInfo = none) : LaterCTE (stepAdvA f body w p) := by
  unfold stepAdvA at h ⊢
  split at h
  · rw [if_pos (by assumption)]
    exact stepTargetA_abort f body _ _ hw hf h
  · rw [if_neg (by assumption)]
    exact stepTargetA_abort f body _ _ hw hf h

theorem advExtWalk_abort_cte (body : List ℕ) (f : ℕ)
    (hf3 : body.get? 3 = some f) (hbit : f &&& 0x04 ≠ 0)
    (h : (advExtWalk body).CTEInfo = none) : LaterCTE (advExtWalk body) := by
  unfold advExtWalk at h ⊢
  by_cases h3 : body.length < 3
  · rw [if_pos h3]
    exact ⟨rfl, rfl, rfl, rfl, rfl⟩
  · rw [if_neg h3] at h ⊢
    rcases hg2 : body.get? 2 with _ | b2
    · exact ⟨rfl, rfl, rfl, rfl, rfl⟩
    · simp only [hg2] at h ⊢
      by_cases hlen : body.length < (b2 &&& 0x3F) + 1
      · rw [if_pos hlen]
        exact ⟨rfl, rfl, rfl, rfl, rfl⟩
      · rw [if_neg hlen] at h ⊢
        simp only [hf3] at h ⊢
        exact stepAdvA_abort f body _ 4 ⟨rfl, rfl, rfl, rfl, rfl⟩ hbit h

/-- Fields ordered after AdvDataInfo in the walk. -/
def LaterADI (w : ExtWalk) : Prop :=
  w.AuxPtr = none ∧ w.SyncInfo = none ∧ w.TxPower = none ∧ w.ACAD = none

/-- Fields ordered after AuxPtr in the walk. -/
def LaterAux (w : ExtWalk) : Prop :=
  w.SyncInfo = none ∧ w.TxPower = none ∧ w.ACAD = none

theorem stepACAD_adi (body : List ℕ) (w : ExtWalk) (p : ℕ) :
    (stepACAD body w p).AdvDataInfo = w.AdvDataInfo := by
  unfold stepACAD; split <;> rfl

theorem stepTxPower_adi (f : ℕ) (body : List ℕ) (w : ExtWalk) (p : ℕ) :
    (stepTxPower f body w p).AdvDataInfo = w.AdvDataInfo := by
  unfold stepTxPower
  split
  · split
    · rfl
    · rw [stepACAD_adi]
  · rw [stepACAD_adi]

theorem stepSync_adi (f : ℕ) (body : List ℕ) (w : ExtWalk) (p : ℕ) :
    (stepSync f body w p).AdvDataInfo = w.AdvDataInfo := by
  unfold stepSync
  split
  · rw [stepTxPower_adi]
  · rw [stepTxPower_adi]

theorem stepAuxPtr_adi (f : ℕ) (body : List ℕ) (w : ExtWalk) (p : ℕ) :
    (stepAuxPtr f body w p).AdvDataInfo = w.AdvDataInfo := by
  unfold stepAuxPtr
  split
  · split
    · rfl
    · rw [stepSync_adi]
  · rw [stepSync_adi]

theorem stepACAD_aux (body : List ℕ) (w : ExtWalk) (p : ℕ) :
    (stepACAD body w p).AuxPtr = w.AuxPtr := by
  unfold stepACAD; split <;> rfl

theorem stepTxPower_aux (f : ℕ) (body : List ℕ) (w : ExtWalk) (p : ℕ) :
    (stepTxPower f body w p).AuxPtr = w.AuxPtr := by
  unfold stepTxPower
  split
  · split
    · rfl
    · rw [stepACAD_aux]
  · rw [stepACAD_aux]

theorem stepSync_aux (f : ℕ) (body : List ℕ) (w : ExtWalk) (p : ℕ) :
    (stepSync f body w p).AuxPtr = w.AuxPtr := by
  unfold stepSync
  split
  · rw [stepTxPower_aux]
  · rw [stepTxPower_aux]

theorem stepACAD_txp (body : List ℕ) (w : ExtWalk) (p : ℕ) :
    (stepACAD body w p).TxPower = w.TxPower := by
  unfold stepACAD; split <;> rfl

/-- If the AdvDataInfo presence flag is set but the walk finished with
AdvDataInfo still absent, the walk aborted at or before the AdvDataInfo
read, so every later optional field is also absent. -/
theorem stepADI_abort (f : ℕ) (body : List ℕ) (w : ExtWalk) (p : ℕ)
    (hw : LaterADI w) (hf : f &&& 0x08 ≠ 0)
    (h : (stepADI f body w p).AdvDataInfo = none) : LaterADI (stepADI f body w p) := by
  unfold stepADI at h ⊢
  rw [if_pos hf] at h ⊢
  rcases hg : advDataInfoInit (pySlice body p (p + 2)) with _ | adi
  · exact hw
  · rw [hg] at h
    have h2 : (stepAuxPtr f body { w with AdvDataInfo := some adi } (p + 2)).AdvDataInfo = none := h
    rw [stepAuxPtr_adi] at h2
    simp at h2

theorem stepCTE_adi_abort (f : ℕ) (body : List ℕ) (w : ExtWalk) (p : ℕ)
    (hw : LaterADI w) (hf : f &&& 0x08 ≠ 0)
    (h : (stepCTE f body w p).AdvDataInfo = none) : LaterADI (stepCTE f body w p) := by
  unfold stepCTE at h ⊢
  by_cases hc : f &&& 0x04 ≠ 0
  · rw [if_pos hc] at h ⊢
    rcases hg : body.get? p with _ | c
    · exact hw
    · rw [hg] at h
      have h2 : (stepADI f body { w with CTEInfo := some c } (p + 1)).AdvDataInfo = none := h
      have h3 := stepADI_abort f body { w with CTEInfo := some c } (p + 1) hw hf h2
      exact h3
  · rw [if_neg hc] at h ⊢
    exact stepADI_abort f body w p hw hf h

theorem stepTargetA_adi_abort (f : ℕ) (body : List ℕ) (w : ExtWalk) (p : ℕ)
    (hw : LaterADI w) (hf : f &&& 0x08 ≠ 0)
    (h : (stepTargetA f body w p).AdvDataInfo = none) :
    LaterADI (stepTargetA f body w p) := by
  unfold stepTargetA at h ⊢
  split at h
  · rw [if_pos (by assumption)]
    exact stepCTE_adi_abort f body _ _ hw hf h
  · rw [if_neg (by assumption)]
    exact stepCTE_adi_abort f body _ _ hw hf h

theorem stepAdvA_adi_abort (f : ℕ) (body : List ℕ) (w : ExtWalk) (p : ℕ)
    (hw : LaterADI w) (hf : f &&& 0x08 ≠ 0)
    (h : (stepAdvA f body w p).AdvDataInfo = none) : LaterADI (stepAdvA f body w p) := by
  unfold stepAdvA at h ⊢
  split at h
  · rw [if_pos (by assumption)]
    exact stepTargetA_adi_abort f body _ _ hw hf h
  · rw [if_neg (by assumption)]
    exact stepTargetA_adi_abort f body _ _ hw hf h

theorem advExtWalk_abort_adi (body : List ℕ) (f : ℕ)
    (hf3 : body.get? 3 = some f) (hbit : f &&& 0x08 ≠ 0)
    (h : (advExtWalk body).AdvDataInfo = none) : LaterADI (advExtWalk body) := by
  unfold advExtWalk at h ⊢
  by_cases h3 : body.length < 3
  · rw [if_pos h3]
    exact ⟨rfl, rfl, rfl, rfl⟩
  · rw [if_neg h3] at h ⊢
    rcases hg2 : body.get? 2 with _ | b2
    · exact ⟨rfl, rfl, rfl, rfl⟩
    · simp only [hg2] at h ⊢
      by_cases hlen : body.length < (b2 &&& 0x3F) + 1
      · rw [if_pos hlen]
        exact ⟨rfl, rfl, rfl, rfl⟩
      · rw [if_neg hlen] at h ⊢
        simp only [hf3] at h ⊢
        exact stepAdvA_adi_abort f body _ 4 ⟨rfl, rfl, rfl, rfl⟩ hbit h

/-- If the AuxPtr presence flag is set but the walk finished with AuxPtr
still absent, the walk aborted at or before the AuxPtr read, so every
later optional field is also absent. -/
theorem stepAuxPtr_abort (f : ℕ) (body : List ℕ) (w : ExtWalk) (p : ℕ)
    (hw : LaterAux w) (hf : f &&& 0x10 ≠ 0)
    (h : (stepAuxPtr f body w p).AuxPtr = none) : LaterAux (stepAuxPtr f body w p) := by
  unfold stepAuxPtr at h ⊢
  rw [if_pos hf] at h ⊢
  rcases hg : auxPtrInit (pySlice body p (p + 3)) with _ | ap
  · exact hw
  · rw [hg] at h
    have h2 : (stepSync f body { w with AuxPtr := some ap } (p + 3)).AuxPtr = none := h
    rw [stepSync_aux] at h2
    simp at h2

theorem stepADI_aux_abort (f : ℕ) (body : List ℕ) (w : ExtWalk) (p : ℕ)
    (hw : LaterAux w) (hf : f &&& 0x10 ≠ 0)
    (h : (stepADI f body w p).AuxPtr = none) : LaterAux (stepADI f body w p) := by
  unfold stepADI at h ⊢
  by_cases hc : f &&& 0x08 ≠ 0
  · rw [if_pos hc] at h ⊢
    rcases hg : advDataInfoInit (pySlice body p (p + 2)) with _ | adi
    · exact hw
    · rw [hg] at h
      have h2 : (stepAuxPtr f body { w with AdvDataInfo := some adi } (p + 2)).AuxPtr = none := h
      have h3 := stepAuxPtr_abort f body { w with AdvDataInfo := some adi } (p + 2) hw hf h2
      exact h3
  · rw [if_neg hc] at h ⊢
    exact stepAuxPtr_abort f body w p hw hf h

theorem stepCTE_aux_abort (f : ℕ) (body : List ℕ) (w : ExtWalk) (p : ℕ)
    (hw : LaterAux w) (hf : f &&& 0x10 ≠ 0)
    (h : (stepCTE f body w p).AuxPtr = none) : LaterAux (stepCTE f body w p) := by
  unfold stepCTE at h ⊢
  by_cases hc : f &&& 0x04 ≠ 0
  · rw [if_pos hc] at h ⊢
    rcases hg : body.get? p with _ | c
    · exact hw
    · rw [hg] at h
      have h2 : (stepADI f body { w with CTEInfo := some c } (p + 1)).AuxPtr = none := h
      have h3 := stepADI_aux_abort f body { w with CTEInfo := some c } (p + 1) hw hf h2
      exact h3
  · rw [if_neg hc] at h ⊢
    exact stepADI_aux_abort f body w p hw hf h

theorem stepTargetA_aux_abort (f : ℕ) (body : List ℕ) (w : ExtWalk) (p : ℕ)
    (hw : LaterAux w) (hf : f &&& 0x10 ≠ 0)
    (h : (stepTargetA f body w p).AuxPtr = none) : LaterAux (stepTargetA f body w p) := by
  unfold stepTargetA at h ⊢
  split at h
  · rw [if_pos (by assumption)]
    exact stepCTE_aux_abort f body _ _ hw hf h
  · rw [if_neg (by assumption)]
    exact stepCTE_aux_abort f body _ _ hw hf h

theorem stepAdvA_aux_abort (f : ℕ) (body : List ℕ) (w : ExtWalk) (p : ℕ)
    (hw : LaterAux w) (hf : f &&& 0x10 ≠ 0)
    (h : (stepAdvA f body w p).AuxPtr = none) : LaterAux (stepAdvA f body w p) := by
  unfold stepAdvA at h ⊢
  split at h
  · rw [if_pos (by assumption)]
    exact stepTargetA_aux_abort f body _ _ hw hf h
  · rw [if_neg (by assumption)]
    exact stepTargetA_aux_abort f body _ _ hw hf h

theorem advExtWalk_abort_aux (body : List ℕ) (f : ℕ)
    (hf3 : body.get? 3 = some f) (hbit : f &&& 0x10 ≠ 0)
    (h : (advExtWalk body).AuxPtr = none) : LaterAux (advExtWalk body) := by
  unfold advExtWalk at h ⊢
  by_cases h3 : body.length < 3
  · rw [if_pos h3]
    exact ⟨rfl, rfl, rfl⟩
  · rw [if_neg h3] at h ⊢
    rcases hg2 : body.get? 2 with _ | b2
    · exact ⟨rfl, rfl, rfl⟩
    · simp only [hg2] at h ⊢
      by_cases hlen : body.length < (b2 &&& 0x3F) + 1
      · rw [if_pos hlen]
        exact ⟨rfl, rfl, rfl⟩
      · rw [if_neg hlen] at h ⊢
        simp only [hf3] at h ⊢
        exact stepAdvA_aux_abort f body _ 4 ⟨rfl, rfl, rfl⟩ hbit h

/-- If the TxPower presence flag is set but the walk finished with
TxPower still absent, the walk aborted at or before the TxPower read, so
the trailing ACAD field is also absent. -/
theorem stepTxPower_abort (f : ℕ) (body : List ℕ) (w : ExtWalk) (p : ℕ)
    (hw : w.ACAD = none) (hf : f &&& 0x40 ≠ 0)
    (h : (stepTxPower f body w p).TxPower = none) :
    (stepTxPower f body w p).ACAD = none := by
  unfold stepTxPower at h ⊢
  rw [if_pos hf] at h ⊢
  rcases hg : unpackInt8 (pySlice body p (p + 1)) with _ | tp
  · exact hw
  · rw [hg] at h
    have h2 : (stepACAD body { w with TxPower := some tp } (p + 1)).TxPower = none := h
    rw [stepACAD_txp] at h2
    simp at h2

theorem stepSync_txp_abort (f : ℕ) (body : List ℕ) (w : ExtWalk) (p : ℕ)
    (hw : w.ACAD = none) (hf : f &&& 0x40 ≠ 0)
    (h : (stepSync f body w p).TxPower = none) : (stepSync f body w p).ACAD = none := by
  unfold stepSync at h ⊢
  split at h
  · rw [if_pos (by assumption)]
    exact stepTxPower_abort f body _ _ hw hf h
  · rw [if_neg (by assumption)]
    exact stepTxPower_abort f body _ _ hw hf h

theorem stepAuxPtr_txp_abort (f : ℕ) (body : List ℕ) (w : ExtWalk) (p : ℕ)
    (hw : w.ACAD = none) (hf : f &&& 0x40 ≠ 0)
    (h : (stepAuxPtr f body w p).TxPower = none) :
    (stepAuxPtr f body w p).ACAD = none := by
  unfold stepAuxPtr at h ⊢
  by_cases hc : f &&& 0x10 ≠ 0
  · rw [if_pos hc] at h ⊢
    rcases hg : auxPtrInit (pySlice body p (p + 3)) with _ | ap
    · exact hw
    · rw [hg] at h
      have h2 : (stepSync f body { w with AuxPtr := some ap } (p + 3)).TxPower = none := h
      have h3 := stepSync_txp_abort f body { w with AuxPtr := some ap } (p + 3) hw hf h2
      exact h3
  · rw [if_neg hc] at h ⊢
    exact stepSync_txp_abort f body w p hw hf h

theorem stepADI_txp_abort (f : ℕ) (body : List ℕ) (w : ExtWalk) (p : ℕ)
    (hw : w.ACAD = none) (hf : f &&& 0x40 ≠ 0)
    (h : (stepADI f body w p).TxPower = none) : (stepADI f body w p).ACAD = none := by
  unfold stepADI at h ⊢
  by_cases hc : f &&& 0x08 ≠ 0
  · rw [if_pos hc] at h ⊢
    rcases hg : advDataInfoInit (pySlice body p (p + 2)) with _ | adi
    · exact hw
    · rw [hg] at h
      have h2 : (stepAuxPtr f body { w with AdvDataInfo := some adi } (p + 2)).TxPower = none := h
      have h3 := stepAuxPtr_txp_abort f body { w with AdvDataInfo := some adi } (p + 2) hw hf h2
      exact h3
  · rw [if_neg hc] at h ⊢
    exact stepAuxPtr_txp_abort f body w p hw hf h

theorem stepCTE_txp_abort (f : ℕ) (body : List ℕ) (w : ExtWalk) (p : ℕ)
    (hw : w.ACAD = none) (hf : f &&& 0x40 ≠ 0)
    (h : (stepCTE f body w p).TxPower = none) : (stepCTE f body w p).ACAD = none := by
  unfold stepCTE at h ⊢
  by_cases hc : f &&& 0x04 ≠ 0
  · rw [if_pos hc] at h ⊢
    rcases hg : body.get? p with _ | c
    · exact hw
    · rw [hg] at h
      have h2 : (stepADI f body { w with CTEInfo := some c } (p + 1)).TxPower = none := h
      have h3 := stepADI_txp_abort f body { w with CTEInfo := some c } (p + 1) hw hf h2
      exact h3
  · rw [if_neg hc] at h ⊢
    exact stepADI_txp_abort f body w p hw hf h

theorem stepTargetA_txp_abort (f : ℕ) (body : List ℕ) (w : ExtWalk) (p : ℕ)
    (hw : w.ACAD = none) (hf : f &&& 0x40 ≠ 0)
    (h : (stepTargetA f body w p).TxPower = none) :
    (stepTargetA f body w p).ACAD = none := by
  unfold stepTargetA at h ⊢
  split at h
  · rw [if_pos (by assumption)]
    exact stepCTE_txp_abort f body _ _ hw hf h
  · rw [if_neg (by assumption)]
    exact stepCTE_txp_abort f body _ _ hw hf h

theorem stepAdvA_txp_abort (f : ℕ) (body : List ℕ) (w : ExtWalk) (p : ℕ)
    (hw : w.ACAD = none) (hf : f &&& 0x40 ≠ 0)
    (h : (stepAdvA f body w p).TxPower = none) : (stepAdvA f body w p).ACAD = none := by
  unfold stepAdvA at h ⊢
  split at h
  · rw [if_pos (by assumption)]
    exact stepTargetA_txp_abort f body _ _ hw hf h
  · rw [if_neg (by assumption)]
    exact stepTargetA_txp_abort f body _ _ hw hf h

theorem advExtWalk_abort_txp (body : List ℕ) (f : ℕ)
    (hf3 : body.get? 3 = some f) (hbit : f &&& 0x40 ≠ 0)
    (h : (advExtWalk body).TxPower = none) : (advExtWalk body).ACAD = none := by
  unfold advExtWalk at h ⊢
  by_cases h3 : body.length < 3
  · rw [if_pos h3]
  · rw [if_neg h3] at h ⊢
    rcases hg2 : body.get? 2 with _ | b2
    · rfl
    · simp only [hg2] at h ⊢
      by_cases hlen : body.length < (b2 &&& 0x3F) + 1
      · rw [if_pos hlen]
      · rw [if_neg hlen] at h ⊢
        simp only [hf3] at h ⊢
        exact stepAdvA_txp_abort f body _ 4 rfl hbit h

end Sniffle

namespace Sniffle

def c5body : List ℕ := [0x47, 0x00, 0x01, 0x01, 0x11, 0x22, 0x33, 0x44, 0x55, 0x66]

/-- C5 counterexample: a body whose declared header-body length is 1
(only the flags byte) but whose AdvA presence flag is set.  The walk
parses the full 6-byte AdvA anyway: it consumes `hdrPos - 3 = 7` header
bytes, exceeding the declared length 1, with no abort and the field
fully populated — refuting the invariant that the walk consumes at most
the declared header-body length. -/
theorem ext_header_walk_overconsumes :
    (advExtWalk c5body).hdrBodyLen = 1 ∧
    (advExtWalk c5body).hdrPos - 3 = 7 ∧
    ¬((advExtWalk c5body).hdrPos - 3 ≤ (advExtWalk c5body).hdrBodyLen) ∧
    (advExtWalk c5body).AdvA = some [0x11, 0x22, 0x33, 0x44, 0x55, 0x66] := by
  decide

/-- C5 (amended): the extended-header walk never reads outside the body
buffer — every populated byte-sequence field is a contiguous piece of the
body and every populated single byte is a byte of the body; when one of
the fixed-size sub-field reads (the CTEInfo byte, the 2-byte
AdvDataInfo, the 3-byte AuxPtr, the 1-byte TxPower) would exceed bounds
the walk aborts at the last fully-parsed field — if such a field's
presence flag is set but the field was left absent, every optional field
after it is also absent; and the constructor still returns a valid
decoded PDU of the dispatched extended kind whose fields are exactly the
walk's.  (The original claim's bound by the declared header-body length
does not hold — see the counterexample.) -/
theorem ext_header_walk_contained (body : List ℕ) (k : PduKind) (pkt : PacketMessage)
    (hlen : 2 ≤ pkt.body.length) :
    WalkInv (advExtWalk body) body ∧
    (∀ f, body.get? 3 = some f →
        (f &&& 0x04 ≠ 0 → (advExtWalk body).CTEInfo = none → LaterCTE (advExtWalk body)) ∧
        (f &&& 0x08 ≠ 0 → (advExtWalk body).AdvDataInfo = none →
            LaterADI (advExtWalk body)) ∧
        (f &&& 0x10 ≠ 0 → (advExtWalk body).AuxPtr = none → LaterAux (advExtWalk body)) ∧
        (f &&& 0x40 ≠ 0 → (advExtWalk body).TxPower = none →
            (advExtWalk body).ACAD = none)) ∧
    (∃ d, advExtIndInit k pkt = .ok d) ∧
    (∀ d, advExtIndInit k pkt = .ok d → d.kind = k ∧
        d.AdvA = (advExtWalk pkt.body).AdvA ∧
        d.CTEInfo = (advExtWalk pkt.body).CTEInfo ∧
        d.AdvDataInfo = (advExtWalk pkt.body).AdvDataInfo) := by
  rcases h0 : pkt.body.get? 0 with _ | b0
  · exact absurd (List.get?_eq_none.mp h0) (by omega)
  rcases h1 : pkt.body.get? 1 with _ | b1
  · exact absurd (List.get?_eq_none.mp h1) (by omega)
  refine ⟨advExtWalk_inv body, ?_, ?_, ?_⟩
  · intro f hf
    exact ⟨advExtWalk_abort_cte body f hf, advExtWalk_abort_adi body f hf,
           advExtWalk_abort_aux body f hf, advExtWalk_abort_txp body f hf⟩
  · rcases hini : advExtIndInit k pkt with e | d0
    · unfold advExtIndInit advertInit at hini
      rw [h0, h1] at hini
      simp at hini
    · exact ⟨d0, rfl⟩
  · intro d hd
    simp only [advExtIndInit, advertInit, h0, h1, Except.ok.injEq] at hd
    subst hd
    exact ⟨rfl, rfl, rfl, rfl⟩

/-- The ten common header fields of a decoded PDU agree with the raw
record it was decoded from. -/
def HdrEq (d : DPacket) (p : PacketMessage) : Prop :=
  d.ts = p.ts ∧ d.ts_epoch = p.ts_epoch ∧ d.aa = p.aa ∧ d.rssi = p.rssi ∧
  d.chan = p.chan ∧ d.phy = p.phy ∧ d.body = p.body ∧ d.data_dir = p.data_dir ∧
  d.event = p.event ∧ d.crc_rev = p.crc_rev

theorem advertInit_hdr {k : PduKind} {pkt : PacketMessage} {d : DPacket}
    (h : advertInit k pkt = .ok d) : HdrEq d pkt := by
  unfold advertInit at h
  split at h
  · rw [Except.ok.injEq] at h
    subst h
    exact ⟨rfl, rfl, rfl, rfl, rfl, rfl, rfl, rfl, rfl, rfl⟩
  · simp at h

theorem advaInit_hdr {k : PduKind} {pkt : PacketMessage} {d : DPacket}
    (h : advaInit k pkt = .ok d) : HdrEq d pkt := by
  unfold advaInit at h
  split at h
  · simp at h
  · rename_i a ha
    rw [Except.ok.injEq] at h
    subst h
    have h9 := advertInit_hdr ha
    exact h9

theorem advDirectInit_hdr {pkt : PacketMessage} {d : DPacket}
    (h : advDirectInit pkt = .ok d) : HdrEq d pkt := by
  unfold advDirectInit at h
  split at h
  · simp at h
  · rename_i a ha
    rw [Except.ok.injEq] at h
    subst h
    have h9 := advertInit_hdr ha
    exact h9

theorem scanReqInit_hdr {k : PduKind} {pkt : PacketMessage} {d : DPacket}
    (h : scanReqInit k pkt = .ok d) : HdrEq d pkt := by
  unfold scanReqInit at h
  split at h
  · simp at h
  · rename_i a ha
    rw [Except.ok.injEq] at h
    subst h
    have h9 := advertInit_hdr ha
    exact h9

theorem connectIndInit_hdr {k : PduKind} {pkt : PacketMessage} {d : DPacket}
    (h : connectIndInit k pkt = .ok d) : HdrEq d pkt := by
  unfold connectIndInit at h
  split at h
  · simp at h
  · rename_i a ha
    split at h
    · simp at h
    · split at h
      · split at h
        · simp at h
        · split at h
          · simp at h
          · rw [Except.ok.injEq] at h
            subst h
            have h9 := advertInit_hdr ha
            exact h9
      · simp at h

theorem dataInit_hdr {k : PduKind} {pkt : PacketMessage} {d : DPacket}
    (h : dataInit k pkt = .ok d) : HdrEq d pkt := by
  unfold dataInit at h
  split at h
  · rw [Except.ok.injEq] at h
    subst h
    exact ⟨rfl, rfl, rfl, rfl, rfl, rfl, rfl, rfl, rfl, rfl⟩
  · simp at h

theorem llControlInit_hdr {pkt : PacketMessage} {d : DPacket}
    (h : llControlInit pkt = .ok d) : HdrEq d pkt := by
  unfold llControlInit at h
  split at h
  · simp at h
  · rename_i a ha
    split at h
    · simp at h
    · rw [Except.ok.injEq] at h
      subst h
      have h9 := dataInit_hdr ha
      exact h9

theorem advExtIndInit_hdr {k : PduKind} {pkt : PacketMessage} {d : DPacket}
    (h : advExtIndInit k pkt = .ok d) : HdrEq d pkt := by
  unfold advExtIndInit at h
  split at h
  · simp at h
  · rename_i a ha
    rw [Except.ok.injEq] at h
    subst h
    have h9 := advertInit_hdr ha
    exact h9

theorem construct_hdr {k : PduKind} {pkt : PacketMessage} {d : DPacket}
    (h : construct k pkt = .ok d) : HdrEq d pkt := by
  cases k <;> simp only [construct] at h <;>
    first
      | exact advertInit_hdr h
      | exact advaInit_hdr h
      | exact advDirectInit_hdr h
      | exact scanReqInit_hdr h
      | exact connectIndInit_hdr h
      | exact advExtIndInit_hdr h
      | exact dataInit_hdr h
      | exact llControlInit_hdr h
      | simp at h

theorem advertDecode_hdr {pkt : PacketMessage} {ds : Option DState} {d : DPacket}
    (h : advertDecode pkt ds = .ok d) : HdrEq d pkt := by
  unfold advertDecode at h
  split at h
  · simp at h
  · split at h
    · exact construct_hdr h
    · split at h
      · simp at h
      · exact construct_hdr h

theorem dataDecode_hdr {pkt : PacketMessage} {d : DPacket}
    (h : dataDecode pkt = .ok d) : HdrEq d pkt := by
  unfold dataDecode at h
  split at h
  · simp at h
  · exact construct_hdr h

theorem decodePhase_hdr {pkt : PacketMessage} {ds : Option DState} {d : DPacket}
    (h : decodePhase pkt ds = .ok d) : HdrEq d pkt := by
  unfold decodePhase at h
  split at h
  · exact advertDecode_hdr h
  · exact dataDecode_hdr h

end Sniffle

namespace Sniffle

deriving instance DecidableEq for Except

theorem sweepScan_chain_eq (pkt : DPacket) (st : DState) :
    (sweepScan pkt st).aux_pending_chain = st.aux_pending_chain := by
  unfold sweepScan
  split
  · split
    · split <;> rfl
    · rfl
  · rfl

theorem sweepChain_scan_eq (pkt : DPacket) (st : DState) :
    (sweepChain pkt st).aux_pending_scan_rsp = st.aux_pending_scan_rsp := by
  unfold sweepChain
  split
  · rfl
  · split
    · rfl
    · split <;> rfl

theorem sweepScan_clears (pkt : DPacket) (st : DState) (dl : ℚ)
    (hdl : st.aux_pending_scan_rsp = some dl) (hne : dl ≠ 0)
    (hcond : pkt.ts > dl ∨ pkt.kind = .auxScanRsp) :
    (sweepScan pkt st).aux_pending_scan_rsp = none := by
  unfold sweepScan
  have ht : truthyQ st.aux_pending_scan_rsp = true := by
    rw [hdl]
    simp [truthyQ, hne]
  rw [ht]
  simp only [if_true, hdl]
  rw [if_pos hcond]

theorem sweepChain_clears (pkt : DPacket) (st : DState)
    (adi : Option AdvDataInfoData) (ch : ℕ) (dl : ℚ)
    (hch : st.aux_pending_chain = some (adi, ch, dl))
    (hcond : pkt.ts > dl ∨ (pkt.kind = .auxChainInd ∧ pkt.chan = ch ∧
        (sameAdiRef pkt = true ∨ (pkt.AdvDataInfo = none ∧ adi = none)))) :
    (sweepChain pkt st).aux_pending_chain = none := by
  unfold sweepChain
  simp only [hch]
  by_cases ht : pkt.ts > dl
  · rw [if_pos ht]
  · rw [if_neg ht]
    rcases hcond with h | h
    · exact absurd h ht
    · rw [if_pos h]

theorem update_state_sweep (pkt : DPacket) (st st2 : DState)
    (h : update_state pkt st = .ok st2) :
    ∃ m, applyRules pkt st = .ok m ∧ st2 = sweep pkt m := by
  unfold update_state at h
  rcases ha : applyRules pkt st with s | s
  · rw [ha] at h
    simp at h
  · rw [ha] at h
    simp only [Except.ok.injEq] at h
    exact ⟨s, rfl, h.symm⟩

/-- C6 (amended): the expiry sweep is applied unconditionally after the
kind-specific rules of `update_state`: the pending scan-response
deadline (present and accepted by the code's truthiness test) is cleared
whenever the current PDU's timestamp has passed it or the PDU is an
AUX_SCAN_RSP, and the pending chain slot is cleared whenever the PDU's
timestamp has passed its deadline or the PDU is an AUX_CHAIN_IND whose
channel matches and whose `AdvDataInfo` object is identical to the
slot's (reference identity — both absent, or the slot was just armed
with this packet's own object); a value-equal identifier from a
different packet does not clear the slot (see the counterexample). -/
theorem expiry_sweep_rules (pkt : DPacket) (st st2 mid : DState) :
    (update_state pkt st = .ok st2 → ∃ m, applyRules pkt st = .ok m ∧ st2 = sweep pkt m) ∧
    (∀ dl, mid.aux_pending_scan_rsp = some dl → dl ≠ 0 →
        (pkt.ts > dl ∨ pkt.kind = .auxScanRsp) →
        (sweep pkt mid).aux_pending_scan_rsp = none) ∧
    (∀ adi ch dl, mid.aux_pending_chain = some (adi, ch, dl) →
        (pkt.ts > dl ∨ (pkt.kind = .auxChainInd ∧ pkt.chan = ch ∧
            (sameAdiRef pkt = true ∨ (pkt.AdvDataInfo = none ∧ adi = none)))) →
        (sweep pkt mid).aux_pending_chain = none) := by
  refine ⟨update_state_sweep pkt st st2, ?_, ?_⟩
  · intro dl hdl hne hcond
    unfold sweep
    rw [sweepChain_scan_eq]
    exact sweepScan_clears pkt mid dl hdl hne hcond
  · intro adi ch dl hch hcond
    unfold sweep
    refine sweepChain_clears pkt _ adi ch dl ?_ hcond
    rw [sweepScan_chain_eq]
    exact hch

def w6pkt : DPacket := { ts := 5, kind := .auxScanRsp }

def w6mid : DState :=
  { aux_pending_scan_rsp := some 2, aux_pending_chain := some (none, 3, 1) }

/-- C6 witness: a concrete AUX_SCAN_RSP at ts 5 clears a pending scan
deadline of 2 and a pending chain with deadline 1. -/
theorem expiry_sweep_rules_witness :
    (sweep w6pkt w6mid).aux_pending_scan_rsp = none ∧
    (sweep w6pkt w6mid).aux_pending_chain = none := by
  constructor
  · exact (expiry_sweep_rules w6pkt w6mid w6mid w6mid).2.1 2 rfl (by norm_num) (Or.inr rfl)
  · exact (expiry_sweep_rules w6pkt w6mid w6mid w6mid).2.2 none 3 1 rfl (Or.inl (by decide))

/-- Reduction of the entry point at a present state. -/
theorem decodeTop_some (pkt : PacketMessage) (st : DState) :
    decodeTop pkt (some st) =
      match decodePhase pkt (some st) with
      | .ok d =>
        match update_state d st with
        | .ok st2 => (.decoded d, some st2)
        | .error st2 => (.undecoded pkt, some st2)
      | .error _ => (.undecoded pkt, some st) := rfl

/-- C3 (amended): the top-level decode entry point never propagates an
internal failure: its result is either a decoded PDU or the original raw
record handed back unchanged as the generic undecoded representation,
and a failure during the decode phase leaves the Decoder State exactly
as it was.  (A failure inside the state update, however, can leave the
state partially mutated — see the counterexample.) -/
theorem decode_failure_contained (pkt : PacketMessage) (st : DState) :
    ((∃ d st2, decodeTop pkt (some st) = (.decoded d, st2)) ∨
      (decodeTop pkt (some st)).1 = .undecoded pkt) ∧
    (decodePhase pkt (some st) = .error () →
      decodeTop pkt (some st) = (.undecoded pkt, some st)) := by
  constructor
  · rcases hp : decodePhase pkt (some st) with e | d
    · right
      rw [decodeTop_some]
      simp only [hp]
    · rcases hu : update_state d st with s2 | s2
      · right
        rw [decodeTop_some]
        simp only [hp, hu]
      · left
        refine ⟨d, some s2, ?_⟩
        rw [decodeTop_some]
        simp only [hp, hu]
  · intro he
    rw [decodeTop_some, he]

def w3pkt : PacketMessage := { aa := BLE_ADV_AA, body := [] }

/-- C3 witness: an empty-body advertising record fails in the decode
phase; the entry point returns the raw record with the state untouched. -/
theorem decode_failure_contained_witness :
    decodeTop w3pkt (some ({} : DState)) = (.undecoded w3pkt, some ({} : DState)) :=
  (decode_failure_contained w3pkt {}).2 (by decide)

def c3pkt : PacketMessage := { ts := 1, aa := BLE_ADV_AA, chan := 0, body := [0x08, 0x00] }

def c3st : DState := { cur_aa := some 777 }

/-- C3 counterexample: an AUX_CONNECT_RSP record processed while the
pending-extended-connection slot is empty.  The state update overwrites
the active connection access address with the absent pending value and
then raises inside the bit-reversal of the absent pending CRC-init; the
entry point catches the failure and returns the raw record, but the
Decoder State is left modified (cur_aa cleared) — refuting the claim
that the state is exactly as before the call on every failure path. -/
theorem decode_failure_mutates_state :
    (decodeTop c3pkt (some c3st)).1 = .undecoded c3pkt ∧
    (decodeTop c3pkt (some c3st)).2 = some { c3st with cur_aa := none } ∧
    (decodeTop c3pkt (some c3st)).2 ≠ some c3st := by
  refine ⟨by decide, by decide, by decide⟩

end Sniffle

namespace Sniffle

/-- C2 (amended): an AUX_CONNECT_RSP with a populated
pending-extended-connection slot promotes it into the active connection
(copy the access address, reverse-bit the CRC-init, clear the slot, then
the expiry sweep applies).  With an empty pending slot the update is not
a no-op on the connection fields: it overwrites the active connection
access address with the absent pending value and then fails internally
(the failure is contained at the entry point); the reversed CRC-init is
left unchanged. -/
theorem aux_connect_rsp_promotion (pkt : DPacket) (st : DState)
    (hk : pkt.kind = .auxConnectRsp) :
    (∀ aaP ciP, st.aux_pending_aa = some aaP → st.aux_pending_crci = some ciP →
        update_state pkt st = .ok (sweep pkt
          { st with cur_aa := some aaP, aux_pending_aa := none,
                    crc_init_rev := some (rbit24 ciP), aux_pending_crci := none })) ∧
    (st.aux_pending_aa = none → st.aux_pending_crci = none →
        update_state pkt st = .error { st with cur_aa := none, aux_pending_aa := none }) := by
  have hcls : isConnectIndKind pkt.kind = false := by
    rw [hk]
    decide
  constructor
  · intro aaP ciP hA hC
    unfold update_state applyRules
    rw [hcls]
    simp only [Bool.false_eq_true, if_false, hk, if_pos rfl, hA, hC, if_true]
  · intro hA hC
    unfold update_state applyRules
    rw [hcls]
    simp only [Bool.false_eq_true, if_false, hk, if_pos rfl, hA, hC, if_true]

def c2pkt : DPacket := { ts := 1, kind := .auxConnectRsp }

def c2st : DState := { cur_aa := some 42 }

/-- C2 counterexample: an AUX_CONNECT_RSP with the pending slot empty
while a connection is active: the update overwrites `cur_aa` with the
absent pending value (and then fails internally) — the connection fields
are not left unchanged, refuting the no-op half of the claim. -/
theorem aux_connect_rsp_empty_not_noop :
    update_state c2pkt c2st = .error { c2st with cur_aa := none } ∧
    ({ c2st with cur_aa := none } : DState).cur_aa ≠ c2st.cur_aa := by
  refine ⟨by decide, by decide⟩

def w2pkt : DPacket := { ts := 1, kind := .auxConnectRsp }

def w2st : DState :=
  { aux_pending_aa := some 0xABCD1234, aux_pending_crci := some 0x123456 }

/-- C2 witness: a concrete promotion and a concrete empty-slot failure. -/
theorem aux_connect_rsp_promotion_witness :
    update_state w2pkt w2st = .ok (sweep w2pkt
      { w2st with cur_aa := some 0xABCD1234, aux_pending_aa := none,
                  crc_init_rev := some (rbit24 0x123456), aux_pending_crci := none }) ∧
    update_state w2pkt ({} : DState) =
      .error { ({} : DState) with cur_aa := none, aux_pending_aa := none } := by
  constructor
  · exact (aux_connect_rsp_promotion w2pkt w2st rfl).1 0xABCD1234 0x123456 rfl rfl
  · exact (aux_connect_rsp_promotion w2pkt {} rfl).2 rfl rfl

def c1pkt : DPacket :=
  { kind := .auxConnectReq, chan := 0, ts := 1, aa_conn := some 0x11223344,
    CRCInit := some 0x00ABCD }

def c1st : DState := { last_state := .advertisingExt }

def stateOfE : Except DState DState → DState
  | .ok s => s
  | .error s => s

/-- C1 (code bug): a CONNECT_IND-class PDU on a secondary channel (an
AUX_CONNECT_REQ) while the last capture mode is extended advertising.
The claim (and the companion AUX_CONNECT_RSP handler, which
unconditionally promotes the pending slot) requires the
pending-extended-connection slot to be populated and the active
connection left alone; the code instead activates the connection
immediately and leaves the pending slot empty — the guard
`chan < 37 and last_state != ADVERTISING_EXT` selects the wrong arm in
the extended-advertising cases. -/
theorem connect_ind_ext_mode_divergence :
    update_state c1pkt c1st =
      .ok { c1st with cur_aa := some 0x11223344,
                      crc_init_rev := some (rbit24 0x00ABCD) } ∧
    (stateOfE (update_state c1pkt c1st)).aux_pending_aa = none ∧
    (stateOfE (update_state c1pkt c1st)).aux_pending_crci = none := by
  refine ⟨by decide, by decide, by decide⟩

def c7pkt : PacketMessage := { aa := BLE_ADV_AA, chan := 0, body := [0x07, 0x00] }

def kindOfResult : DecodeResult → Option PduKind
  | .decoded d => some d.kind
  | .undecoded _ => none

/-- C7 (code bug): a secondary-channel PDU-type-7 advertising record.
With the Decoder State absent the dispatcher dereferences the absent
state (`dstate.aux_pending_scan_rsp` with `dstate=None`), the resulting
failure is contained, and the entry point returns the raw undecoded
record — whereas the same record with an empty session state decodes to
AUX_ADV_IND.  Stateless decode is therefore not a pure dispatch for
these records. -/
theorem stateless_decode_divergence :
    decodeTop c7pkt none = (.undecoded c7pkt, none) ∧
    kindOfResult (decodeTop c7pkt (some {})).1 = some .auxAdvInd ∧
    (decodeTop c7pkt (some {})).2 = some ({} : DState) := by
  refine ⟨by decide, by decide, by decide⟩

end Sniffle

namespace Sniffle

theorem advertInit_kind {k : PduKind} {pkt : PacketMessage} {d : DPacket}
    (h : advertInit k pkt = .ok d) : d.kind = k := by
  unfold advertInit at h
  split at h
  · rw [Except.ok.injEq] at h
    subst h
    rfl
  · simp at h

theorem advExtIndInit_kind {k : PduKind} {pkt : PacketMessage} {d : DPacket}
    (h : advExtIndInit k pkt = .ok d) : d.kind = k := by
  unfold advExtIndInit at h
  split at h
  · simp at h
  · rename_i a ha
    rw [Except.ok.injEq] at h
    subst h
    have h9 := advertInit_kind ha
    exact h9

theorem advExtIndInit_ok (k : PduKind) (pkt : PacketMessage) {b0 b1 : ℕ}
    (h0 : pkt.body.get? 0 = some b0) (h1 : pkt.body.get? 1 = some b1) :
    ∃ d, advExtIndInit k pkt = .ok d := by
  rcases hini : advExtIndInit k pkt with e | d0
  · unfold advExtIndInit advertInit at hini
    rw [h0, h1] at hini
    simp at hini
  · exact ⟨d0, rfl⟩

theorem secondarySelect_seven (pkt : PacketMessage) (st : DState) :
    secondarySelect pkt (some st) 7 =
      .ok (if scanRspHit st pkt.ts then .auxScanRsp
           else if chainHit st pkt.chan pkt.ts then .auxChainInd
           else .auxAdvInd) := by
  unfold secondarySelect
  by_cases hs : scanRspHit st pkt.ts
  · simp [hs]
  · by_cases hc : chainHit st pkt.chan pkt.ts
    · simp [hs, hc]
    · simp [hs, hc]

/-- C4: for a secondary-channel advertising record with PDU-type nibble
7, decoded with a Decoder State present, dispatch resolves the ambiguous
kind in precedence order against the packet's timestamp: AUX_SCAN_RSP if
a pending scan-response deadline exists (truthy) and ts is strictly
before it; else AUX_CHAIN_IND if a pending chain exists, its channel
equals the record's channel, and ts is strictly before its deadline;
else AUX_ADV_IND. -/
theorem aux_type7_tiebreak (pkt : PacketMessage) (st : DState) (b0 : ℕ)
    (h0 : pkt.body.get? 0 = some b0) (h7 : b0 &&& 0xF = 7)
    (hadv : pkt.aa = BLE_ADV_AA) (hsec : pkt.chan < 37) (hlen : 2 ≤ pkt.body.length) :
    ∃ d, decodePhase pkt (some st) = .ok d ∧
      d.kind = (if scanRspHit st pkt.ts then .auxScanRsp
                else if chainHit st pkt.chan pkt.ts then .auxChainInd
                else .auxAdvInd) := by
  rcases h1 : pkt.body.get? 1 with _ | b1
  · exact absurd (List.get?_eq_none.mp h1) (by omega)
  have hnot : ¬ 37 ≤ pkt.chan := by omega
  unfold decodePhase advertDecode
  rw [if_pos hadv]
  simp only [h0]
  rw [if_neg hnot, h7, secondarySelect_seven]
  by_cases hs : scanRspHit st pkt.ts
  · simp only [hs, if_true]
    obtain ⟨d0, hd0⟩ := advExtIndInit_ok .auxScanRsp pkt h0 h1
    refine ⟨d0, ?_, ?_⟩
    · simpa [construct] using hd0
    · rw [advExtIndInit_kind hd0]
  · by_cases hc : chainHit st pkt.chan pkt.ts
    · simp only [hs, hc]
      obtain ⟨d0, hd0⟩ := advExtIndInit_ok .auxChainInd pkt h0 h1
      refine ⟨d0, ?_, ?_⟩
      · simpa [construct, hs, hc] using hd0
      · rw [advExtIndInit_kind hd0]
        simp [hs, hc]
    · simp only [hs, hc]
      obtain ⟨d0, hd0⟩ := advExtIndInit_ok .auxAdvInd pkt h0 h1
      refine ⟨d0, ?_, ?_⟩
      · simpa [construct, hs, hc] using hd0
      · rw [advExtIndInit_kind hd0]
        simp [hs, hc]

def w4pkt : PacketMessage := { ts := 1, aa := BLE_ADV_AA, chan := 0, body := [0x07, 0x00] }

def w4st : DState := { aux_pending_scan_rsp := some 2 }

/-- C4 witness: with a pending scan-response deadline of 2 and ts 1,
the dispatcher resolves the type-7 ambiguity to AUX_SCAN_RSP. -/
theorem aux_type7_tiebreak_witness :
    ∃ d, decodePhase w4pkt (some w4st) = .ok d ∧
      d.kind = (if scanRspHit w4st w4pkt.ts then .auxScanRsp
                else if chainHit w4st w4pkt.chan w4pkt.ts then .auxChainInd
                else .auxAdvInd) :=
  aux_type7_tiebreak w4pkt w4st 0x07 (by decide) (by decide) (by decide) (by decide)
    (by decide)

/-- C8: the decoded AUX pointer microsecond offset is the 13-bit raw
offset (second byte plus the low 5 bits of the third byte shifted left
by 8) multiplied by 300 when the offset-units flag (bit 7 of the first
byte) is set and by 30 when it is clear; in particular offset field
value 10 yields 3000 µs with the flag set and 300 µs with it clear. -/
theorem auxptr_offset_units (b0 b1 b2 : ℕ) (hb1 : b1 < 256) :
    ∃ ap, auxPtrInit [b0, b1, b2] = some ap ∧
      b1 + ((b2 &&& 0x1F) <<< 8) < 8192 ∧
      (b0 &&& 0x80 ≠ 0 → ap.offsetUsec = (b1 + ((b2 &&& 0x1F) <<< 8)) * 300) ∧
      (b0 &&& 0x80 = 0 → ap.offsetUsec = (b1 + ((b2 &&& 0x1F) <<< 8)) * 30) ∧
      (auxPtrInit [0x80, 10, 0]).map AuxPtrData.offsetUsec = some 3000 ∧
      (auxPtrInit [0x00, 10, 0]).map AuxPtrData.offsetUsec = some 300 := by
  refine ⟨{ chan := b0 &&& 0x3F, phy := b2 >>> 5,
            offsetUsec := (b1 + ((b2 &&& 0x1F) <<< 8)) *
              (if b0 &&& 0x80 ≠ 0 then 300 else 30) },
          rfl, ?_, ?_, ?_, by decide, by decide⟩
  · have h31 : b2 &&& 0x1F ≤ 0x1F := Nat.and_le_right
    have hpow : (2 : ℕ) ^ 8 = 256 := by norm_num
    rw [Nat.shiftLeft_eq, hpow]
    omega
  · intro hf
    rw [if_pos hf]
  · intro hf
    rw [if_neg (by simp [hf])]

/-- C8 witness: the two concrete pointer encodings of the claim. -/
theorem auxptr_offset_units_witness :
    ∃ ap, auxPtrInit [0x80, 10, 0] = some ap ∧
      10 + ((0 &&& 0x1F) <<< 8) < 8192 ∧
      (0x80 &&& 0x80 ≠ 0 → ap.offsetUsec = (10 + ((0 &&& 0x1F) <<< 8)) * 300) ∧
      (0x80 &&& 0x80 = 0 → ap.offsetUsec = (10 + ((0 &&& 0x1F) <<< 8)) * 30) ∧
      (auxPtrInit [0x80, 10, 0]).map AuxPtrData.offsetUsec = some 3000 ∧
      (auxPtrInit [0x00, 10, 0]).map AuxPtrData.offsetUsec = some 300 :=
  auxptr_offset_units 0x80 10 0 (by norm_num)

/-- C9: for a primary-channel advertising record, dispatch is exactly
the 8-entry table on the PDU-type nibble of the first body byte — 0
ADV_IND, 1 ADV_DIRECT_IND, 2 ADV_NONCONN_IND, 3 SCAN_REQ, 4 SCAN_RSP,
5 CONNECT_IND, 6 ADV_SCAN_IND, 7 ADV_EXT_IND — and every nibble 8-15
falls back to the generic header-only advertising representation, so all
16 nibble values select a kind with no failure. -/
theorem primary_dispatch_table (pkt : PacketMessage) (ds : Option DState) (b0 : ℕ)
    (h0 : pkt.body.get? 0 = some b0) (hc : 37 ≤ pkt.chan) :
    advertDecode pkt ds = construct (primarySelect (b0 &&& 0xF)) pkt ∧
    primarySelect 0 = .advInd ∧ primarySelect 1 = .advDirectInd ∧
    primarySelect 2 = .advNonconnInd ∧ primarySelect 3 = .scanReq ∧
    primarySelect 4 = .scanRsp ∧ primarySelect 5 = .connectInd ∧
    primarySelect 6 = .advScanInd ∧ primarySelect 7 = .advExtInd ∧
    (∀ n, 8 ≤ n → n ≤ 15 → primarySelect n = .advert) := by
  refine ⟨?_, rfl, rfl, rfl, rfl, rfl, rfl, rfl, rfl, ?_⟩
  · unfold advertDecode
    simp only [h0]
    rw [if_pos hc]
  · intro n h8 h15
    interval_cases n <;> rfl

def w9pkt : PacketMessage := { aa := BLE_ADV_AA, chan := 38, body := [0x05, 0x00] }

/-- C9 witness: a CONNECT_IND nibble on channel 38. -/
theorem primary_dispatch_table_witness :
    advertDecode w9pkt none = construct (primarySelect (0x05 &&& 0xF)) w9pkt ∧
    primarySelect 0 = .advInd ∧ primarySelect 1 = .advDirectInd ∧
    primarySelect 2 = .advNonconnInd ∧ primarySelect 3 = .scanReq ∧
    primarySelect 4 = .scanRsp ∧ primarySelect 5 = .connectInd ∧
    primarySelect 6 = .advScanInd ∧ primarySelect 7 = .advExtInd ∧
    (∀ n, 8 ≤ n → n ≤ 15 → primarySelect n = .advert) :=
  primary_dispatch_table w9pkt none 0x05 (by decide) (by decide)

/-- C10: every record that decodes to a concrete PDU variant carries the
record's ten common header fields unchanged — capture timestamp, epoch
timestamp, access address, RSSI, channel, PHY, body bytes, direction
flag, event counter and CRC byte-order flag; decode is a pure function
over the record, which is taken by value and never mutated. -/
theorem decoded_header_preserved (pkt : PacketMessage) (ds : Option DState)
    (d : DPacket) (st2 : Option DState)
    (h : decodeTop pkt ds = (.decoded d, st2)) : HdrEq d pkt := by
  rcases ds with _ | st
  · rcases hp : decodePhase pkt none with e | d0
    · unfold decodeTop at h
      simp only [hp] at h
      simp at h
    · unfold decodeTop at h
      simp only [hp, Prod.mk.injEq, DecodeResult.decoded.injEq] at h
      obtain ⟨h1, h2⟩ := h
      subst h1
      exact decodePhase_hdr hp
  · rcases hp : decodePhase pkt (some st) with e | d0
    · rw [decodeTop_some] at h
      simp only [hp] at h
      simp at h
    · rcases hu : update_state d0 st with s2 | s2
      · rw [decodeTop_some] at h
        simp only [hp, hu] at h
        simp at h
      · rw [decodeTop_some] at h
        simp only [hp, hu, Prod.mk.injEq, DecodeResult.decoded.injEq] at h
        obtain ⟨h1, h2⟩ := h
        subst h1
        exact decodePhase_hdr hp

def w10pkt : PacketMessage :=
  { ts := 3, ts_epoch := 4, aa := BLE_ADV_AA, rssi := -40, chan := 37, phy := 1,
    body := [0x00, 0x06, 1, 2, 3, 4, 5, 6], event := 9, crc_rev := true }

def decodedOf : DecodeResult → DPacket
  | .decoded d => d
  | .undecoded _ => {}

/-- C10 witness: a concrete ADV_IND record decoded without state carries
all ten header fields unchanged. -/
theorem decoded_header_preserved_witness :
    HdrEq (decodedOf (decodeTop w10pkt none).1) w10pkt :=
  decoded_header_preserved w10pkt none (decodedOf (decodeTop w10pkt none).1) none
    (by decide)

end Sniffle

namespace Sniffle

def w5pkt : PacketMessage := { aa := BLE_ADV_AA, chan := 0, body := c5body }

/-- C5 witness: the amended walk-safety statement at a concrete body and
record. -/
theorem ext_header_walk_contained_witness :
    WalkInv (advExtWalk c5body) c5body ∧
    (∀ f, c5body.get? 3 = some f →
        (f &&& 0x04 ≠ 0 → (advExtWalk c5body).CTEInfo = none →
            LaterCTE (advExtWalk c5body)) ∧
        (f &&& 0x08 ≠ 0 → (advExtWalk c5body).AdvDataInfo = none →
            LaterADI (advExtWalk c5body)) ∧
        (f &&& 0x10 ≠ 0 → (advExtWalk c5body).AuxPtr = none →
            LaterAux (advExtWalk c5body)) ∧
        (f &&& 0x40 ≠ 0 → (advExtWalk c5body).TxPower = none →
            (advExtWalk c5body).ACAD = none)) ∧
    (∃ d, advExtIndInit .advExtInd w5pkt = .ok d) ∧
    (∀ d, advExtIndInit .advExtInd w5pkt = .ok d → d.kind = .advExtInd ∧
        d.AdvA = (advExtWalk w5pkt.body).AdvA ∧
        d.CTEInfo = (advExtWalk w5pkt.body).CTEInfo ∧
        d.AdvDataInfo = (advExtWalk w5pkt.body).AdvDataInfo) :=
  ext_header_walk_contained c5body .advExtInd w5pkt (by decide)

end Sniffle

namespace Sniffle

def c6pkt : DPacket :=
  { ts := 1, chan := 4, kind := .auxChainInd, AdvDataInfo := some { did := 5, sid := 6 } }

def c6st : DState :=
  { aux_pending_chain := some (some { did := 5, sid := 6 }, 4, 2) }

/-- C6 counterexample: an AUX_CHAIN_IND (carrying no AuxPtr of its own)
whose channel equals the pending chain slot's channel and whose
advertising-data identifier equals the slot's in value (did=5, sid=6 on
both sides), arriving before the deadline.  The claim says the slot is
cleared; the code compares the two `AdvDataInfo` objects with `==`,
which is reference identity since the class defines no `__eq__`, so for
two populated identifiers from different packets the comparison is false
and the slot survives the sweep unchanged. -/
theorem chain_value_match_not_cleared :
    update_state c6pkt c6st = .ok c6st ∧
    c6pkt.kind = .auxChainInd ∧ c6pkt.chan = 4 ∧ ¬(c6pkt.ts > 2) ∧
    c6pkt.AdvDataInfo = some { did := 5, sid := 6 } ∧
    c6st.aux_pending_chain = some (some { did := 5, sid := 6 }, 4, 2) ∧
    (stateOfE (update_state c6pkt c6st)).aux_pending_chain ≠ none := by
  refine ⟨by decide, by decide, by decide, by decide, by decide, by decide, by decide⟩

end Sniffle
